import Mathlib

/-!
Formal model of the honeypot analysis service (`main.py`): entity extraction,
scam classification, persona routing, session-state updates and the callback
gate, together with theorems checking the specification's claims.

Texts are modelled as `List Char` (`Str`).  Python regular expressions are
embedded as explicit pattern syntax (`Atom`) together with a fuel-indexed
backtracking matcher `runMatch` that mirrors Python's leftmost, greedy,
non-overlapping `re.findall` semantics for the pattern constructs actually
used in the source (literals, character classes, bounded greedy repetition,
optional groups, ordered alternation, word boundaries).
-/

abbrev Str := List Char

/-- Coerce a Lean string literal to the `List Char` representation. -/
def pystr (s : String) : Str := s.data

/-- ASCII lower-casing, as `str.lower()` on the ASCII texts the service handles. -/
def lowerStr (s : Str) : Str := s.map Char.toLower

/-- Python's substring test `needle in hay`. -/
def containsSub (needle : Str) : Str → Bool
  | [] => needle.isEmpty
  | c :: rest => needle.isPrefixOf (c :: rest) || containsSub needle rest

/-- Python's whitespace class `\s` (ASCII part). -/
def isPySpace (c : Char) : Bool :=
  c == ' ' || c == '\t' || c == '\n' || c == '\r' || c == '\x0b' || c == '\x0c'

/-- Python's `str.strip()` (whitespace on both ends). -/
def stripStr (s : Str) : Str :=
  ((s.dropWhile isPySpace).reverse.dropWhile isPySpace).reverse

/-- Python's `re.sub(r'\D', '', s)`: keep only the decimal digits. -/
def stripNonDigits (s : Str) : Str := s.filter Char.isDigit

/-- Python's `s.split('|')`. -/
def splitPipe : Str → List Str
  | [] => [[]]
  | c :: rest =>
      if c == '|' then [] :: splitPipe rest
      else
        match splitPipe rest with
        | h :: t => (c :: h) :: t
        | [] => [[c]]

/-- Python's `" ".join(l)`. -/
def joinSpace : List Str → Str
  | [] => []
  | [x] => x
  | x :: y :: rest => x ++ (' ' :: joinSpace (y :: rest))

/-- `\w` of the regex engine: ASCII word character. -/
def isWordChar (c : Char) : Bool :=
  ('a' ≤ c && c ≤ 'z') || ('A' ≤ c && c ≤ 'Z') || ('0' ≤ c && c ≤ '9') || c == '_'

/-- `\b` holds between a word character and a non-word character (or the string
edge), given the previous character (`none` at the start). -/
def atBoundary (prev : Option Char) (s : Str) : Bool :=
  let pw := match prev with | some c => isWordChar c | none => false
  let nw := match s with | c :: _ => isWordChar c | [] => false
  pw != nw

/-- One syntactic piece of an embedded regular expression. -/
inductive Atom where
  | lit  (t : Str)                                      -- literal, case-sensitive
  | ilit (t : Str)                                      -- literal under re.IGNORECASE
  | cls  (p : Char → Bool)                              -- single character class
  | rep  (p : Char → Bool) (lo : Nat) (hi : Option Nat) -- greedy class repetition; `none` = unbounded
  | opt  (g : List Atom)                                -- greedy optional group `(?:...)?`
  | alts (gs : List (List Atom))                        -- ordered alternation `(?:a|b|...)`
  | wb                                                  -- word boundary `\b`

/-- Case-insensitive ASCII prefix test (for `re.IGNORECASE` literals). -/
def isCIPrefixOf : Str → Str → Bool
  | [], _ => true
  | _ :: _, [] => false
  | a :: as, b :: bs => (a.toLower == b.toLower) && isCIPrefixOf as bs

/-- Length of the longest prefix of `s` of characters satisfying `p`, capped at `cap`. -/
def countWhileCap (p : Char → Bool) : Nat → Str → Nat
  | _, [] => 0
  | 0, _ => 0
  | cap + 1, c :: cs => if p c then countWhileCap p cap cs + 1 else 0

/-- The character preceding the rest of the input after consuming `consumed`. -/
def newPrev (consumed : Str) (prev : Option Char) : Option Char :=
  match consumed.getLast? with
  | some c => some c
  | none => prev

/-- Work items of the backtracking matcher: a pattern suffix to match, a
repetition currently giving back characters, or an alternation being tried
in order. -/
inductive MJob where
  | seq  (atoms : List Atom)
  | rg   (p : Char → Bool) (lo : Nat) (n : Nat) (rest : List Atom)
  | alt  (gs : List (List Atom)) (rest : List Atom)

/-- Fuel-indexed backtracking matcher.  `runMatch f job prev s` returns the
remaining suffix of `s` after the first match found in Python's
leftmost-greedy backtracking order, or `none`.  The fuel only bounds the
nesting depth of the search; every call site supplies ample fuel. -/
def runMatch : Nat → MJob → Option Char → Str → Option Str
  | 0, _, _, _ => none
  | Nat.succ _, MJob.seq [], _, s => some s
  | Nat.succ f, MJob.seq (Atom.lit t :: rest), prev, s =>
      if t.isPrefixOf s then
        runMatch f (MJob.seq rest) (newPrev t prev) (s.drop t.length)
      else none
  | Nat.succ f, MJob.seq (Atom.ilit t :: rest), prev, s =>
      if isCIPrefixOf t s then
        runMatch f (MJob.seq rest) (newPrev (s.take t.length) prev) (s.drop t.length)
      else none
  | Nat.succ f, MJob.seq (Atom.cls p :: rest), _, s =>
      match s with
      | [] => none
      | c :: cs => if p c then runMatch f (MJob.seq rest) (some c) cs else none
  | Nat.succ f, MJob.seq (Atom.rep p lo hi :: rest), prev, s =>
      runMatch f (MJob.rg p lo (countWhileCap p (hi.getD s.length) s) rest) prev s
  | Nat.succ f, MJob.seq (Atom.opt g :: rest), prev, s =>
      match runMatch f (MJob.seq (g ++ rest)) prev s with
      | some r => some r
      | none => runMatch f (MJob.seq rest) prev s
  | Nat.succ f, MJob.seq (Atom.alts gs :: rest), prev, s =>
      runMatch f (MJob.alt gs rest) prev s
  | Nat.succ f, MJob.seq (Atom.wb :: rest), prev, s =>
      if atBoundary prev s then runMatch f (MJob.seq rest) prev s else none
  | Nat.succ f, MJob.rg p lo n rest, prev, s =>
      if n < lo then none
      else
        match runMatch f (MJob.seq rest) (newPrev (s.take n) prev) (s.drop n) with
        | some r => some r
        | none => if n == 0 then none else runMatch f (MJob.rg p lo (n - 1) rest) prev s
  | Nat.succ _, MJob.alt [] _, _, _ => none
  | Nat.succ f, MJob.alt (g :: gs) rest, prev, s =>
      match runMatch f (MJob.seq (g ++ rest)) prev s with
      | some r => some r
      | none => runMatch f (MJob.alt gs rest) prev s

/-- Fuel given to a single match attempt; generously above the search depth
any of the embedded patterns can reach on the service's inputs. -/
def matchFuel : Nat := 5000

/-- Scanning loop of `re.findall`: try a match at each position, emit the
matched text, continue after non-empty matches (advance one character after
failures or empty matches). -/
def scanFrom : Nat → List Atom → Option Char → Str → List Str
  | 0, _, _, _ => []
  | Nat.succ f, pat, prev, s =>
      match runMatch matchFuel (MJob.seq pat) prev s with
      | some rem =>
          let len := s.length - rem.length
          if len == 0 then
            match s with
            | [] => [[]]
            | c :: cs => [] :: scanFrom f pat (some c) cs
          else
            s.take len :: scanFrom f pat (newPrev (s.take len) prev) rem
      | none =>
          match s with
          | [] => []
          | c :: cs => scanFrom f pat (some c) cs

/-- `re.findall(pattern, s)` for patterns without capturing groups. -/
def findAll (pat : List Atom) (s : Str) : List Str :=
  scanFrom (s.length + 1) pat none s

/-! ### Character classes of the source patterns -/

def isAsciiAlpha (c : Char) : Bool := ('a' ≤ c && c ≤ 'z') || ('A' ≤ c && c ≤ 'Z')

def isAsciiDigit (c : Char) : Bool := '0' ≤ c && c ≤ '9'

def isAsciiAlnum (c : Char) : Bool := isAsciiAlpha c || isAsciiDigit c

/-- `[A-Za-z0-9._%+-]` (email local part). -/
def emailLocalC (c : Char) : Bool :=
  isAsciiAlnum c || c == '.' || c == '_' || c == '%' || c == '+' || c == '-'

/-- `[A-Za-z0-9.-]` (email domain). -/
def emailDomainC (c : Char) : Bool := isAsciiAlnum c || c == '.' || c == '-'

/-- `[A-Z|a-z]` (email TLD; the source class literally includes the bar). -/
def emailTldC (c : Char) : Bool := isAsciiAlpha c || c == '|'

/-- `[a-zA-Z0-9.\-_]` (UPI local part). -/
def upiLocalC (c : Char) : Bool := isAsciiAlnum c || c == '.' || c == '-' || c == '_'

/-- `[-a-zA-Z0-9@:%._\+~#=]` (URL body). -/
def urlBodyC (c : Char) : Bool :=
  isAsciiAlnum c || c == '-' || c == '@' || c == ':' || c == '%' || c == '.' ||
    c == '_' || c == '+' || c == '~' || c == '#' || c == '='

/-- `[a-zA-Z0-9()]` (URL TLD). -/
def urlTldC (c : Char) : Bool := isAsciiAlnum c || c == '(' || c == ')'

/-- `[-a-zA-Z0-9()@:%_\+.~#?&/=]` (URL tail). -/
def urlTailC (c : Char) : Bool :=
  isAsciiAlnum c || c == '-' || c == '(' || c == ')' || c == '@' || c == ':' ||
    c == '%' || c == '_' || c == '+' || c == '.' || c == '~' || c == '#' ||
    c == '?' || c == '&' || c == '/' || c == '='

/-- `[\-\s]` and `[\s-]`. -/
def dashSpaceC (c : Char) : Bool := c == '-' || isPySpace c

/-- `[\s#-]`. -/
def spaceHashDashC (c : Char) : Bool := isPySpace c || c == '#' || c == '-'

/-- `[6-9]`. -/
def sixToNineC (c : Char) : Bool := '6' ≤ c && c ≤ '9'

/-- `[13]` (legacy bitcoin address lead). -/
def oneThreeC (c : Char) : Bool := c == '1' || c == '3'

/-- `[a-km-zA-HJ-NP-Z1-9]` (base58). -/
def base58C (c : Char) : Bool :=
  ('a' ≤ c && c ≤ 'k') || ('m' ≤ c && c ≤ 'z') || ('A' ≤ c && c ≤ 'H') ||
    ('J' ≤ c && c ≤ 'N') || ('P' ≤ c && c ≤ 'Z') || ('1' ≤ c && c ≤ '9')

/-- `[a-zA-HJ-NP-Z0-9]` (bech32 body). -/
def bech32C (c : Char) : Bool :=
  ('a' ≤ c && c ≤ 'z') || ('A' ≤ c && c ≤ 'H') || ('J' ≤ c && c ≤ 'N') ||
    ('P' ≤ c && c ≤ 'Z') || isAsciiDigit c

/-- `[A-Z]`. -/
def upperC (c : Char) : Bool := 'A' ≤ c && c ≤ 'Z'

/-- `[A-Z0-9]` (case-sensitive occurrences: IFSC). -/
def upperDigitC (c : Char) : Bool := upperC c || isAsciiDigit c

/-- `[A-Z0-9]` under `re.IGNORECASE` (id / order patterns). -/
def alnumCiC (c : Char) : Bool := isAsciiAlnum c

/-! ### The regular expressions of `extract_entities` -/

/-- `\b[A-Za-z0-9._%+-]+@[A-Za-z0-9.-]+\.[A-Z|a-z]{2,}\b` -/
def email_pattern : List Atom :=
  [Atom.wb, Atom.rep emailLocalC 1 none, Atom.lit (pystr "@"),
   Atom.rep emailDomainC 1 none, Atom.lit (pystr "."),
   Atom.rep emailTldC 2 none, Atom.wb]

/-- `[a-zA-Z0-9.\-_]{2,256}@[a-zA-Z]{2,64}` (broad UPI fallback). -/
def upi_pattern_broad : List Atom :=
  [Atom.rep upiLocalC 2 (some 256), Atom.lit (pystr "@"),
   Atom.rep isAsciiAlpha 2 (some 64)]

/-- `(?:https?://|onion://|www\.)[-a-zA-Z0-9@:%._\+~#=]{1,256}\.[a-zA-Z0-9()]{1,6}\b(?:[-a-zA-Z0-9()@:%_\+.~#?&/=]*)`, IGNORECASE. -/
def url_pattern : List Atom :=
  [Atom.alts [[Atom.ilit (pystr "https://")], [Atom.ilit (pystr "http://")],
              [Atom.ilit (pystr "onion://")], [Atom.ilit (pystr "www.")]],
   Atom.rep urlBodyC 1 (some 256), Atom.lit (pystr "."),
   Atom.rep urlTldC 1 (some 6), Atom.wb, Atom.rep urlTailC 0 none]

/-- `(?:\+91[\-\s]?)?\b[6-9]\d{9}\b` -/
def phone_pattern_indian : List Atom :=
  [Atom.opt [Atom.lit (pystr "+91"), Atom.rep dashSpaceC 0 (some 1)],
   Atom.wb, Atom.cls sixToNineC, Atom.rep isAsciiDigit 9 (some 9), Atom.wb]

/-- `\+1[\-\s]?\(?\d{3}\)?[\-\s]?\d{3}[\-\s]?\d{4}` -/
def phone_pattern_us : List Atom :=
  [Atom.lit (pystr "+1"), Atom.rep dashSpaceC 0 (some 1),
   Atom.rep (fun c => c == '(') 0 (some 1), Atom.rep isAsciiDigit 3 (some 3),
   Atom.rep (fun c => c == ')') 0 (some 1), Atom.rep dashSpaceC 0 (some 1),
   Atom.rep isAsciiDigit 3 (some 3), Atom.rep dashSpaceC 0 (some 1),
   Atom.rep isAsciiDigit 4 (some 4)]

/-- `(?:1?[-\s]?)?800[\-\s]?\d{3}[\-\s]?\d{4}` -/
def phone_pattern_tollfree : List Atom :=
  [Atom.opt [Atom.rep (fun c => c == '1') 0 (some 1), Atom.rep dashSpaceC 0 (some 1)],
   Atom.lit (pystr "800"), Atom.rep dashSpaceC 0 (some 1),
   Atom.rep isAsciiDigit 3 (some 3), Atom.rep dashSpaceC 0 (some 1),
   Atom.rep isAsciiDigit 4 (some 4)]

/-- `\+\d{1,3}[\-\s]?\d{6,12}` -/
def phone_intl : List Atom :=
  [Atom.lit (pystr "+"), Atom.rep isAsciiDigit 1 (some 3),
   Atom.rep dashSpaceC 0 (some 1), Atom.rep isAsciiDigit 6 (some 12)]

/-- `\b\d{9,18}\b` -/
def bank_account_pattern : List Atom :=
  [Atom.wb, Atom.rep isAsciiDigit 9 (some 18), Atom.wb]

/-- `\b(?:\d{4}[-\s]?){3}\d{4}\b|\b\d{16}\b` -/
def credit_card_pattern : List Atom :=
  [Atom.alts
    [[Atom.wb, Atom.rep isAsciiDigit 4 (some 4), Atom.rep dashSpaceC 0 (some 1),
      Atom.rep isAsciiDigit 4 (some 4), Atom.rep dashSpaceC 0 (some 1),
      Atom.rep isAsciiDigit 4 (some 4), Atom.rep dashSpaceC 0 (some 1),
      Atom.rep isAsciiDigit 4 (some 4), Atom.wb],
     [Atom.wb, Atom.rep isAsciiDigit 16 (some 16), Atom.wb]]]

/-- `\b[13][a-km-zA-HJ-NP-Z1-9]{25,34}\b` -/
def bitcoin_pattern_legacy : List Atom :=
  [Atom.wb, Atom.cls oneThreeC, Atom.rep base58C 25 (some 34), Atom.wb]

/-- `\bbc1[a-zA-HJ-NP-Z0-9]{39,59}\b` -/
def bitcoin_pattern_bech32 : List Atom :=
  [Atom.wb, Atom.lit (pystr "bc1"), Atom.rep bech32C 39 (some 59), Atom.wb]

/-- `@\w{3,32}\b` -/
def telegram_pattern : List Atom :=
  [Atom.lit (pystr "@"), Atom.rep isWordChar 3 (some 32), Atom.wb]

/-- `\b(?:DH|AMZ|UPS|FEDEX|1Z)[\s-]*\d{6,20}\b`, IGNORECASE. -/
def tracking_pattern : List Atom :=
  [Atom.wb,
   Atom.alts [[Atom.ilit (pystr "DH")], [Atom.ilit (pystr "AMZ")],
              [Atom.ilit (pystr "UPS")], [Atom.ilit (pystr "FEDEX")],
              [Atom.ilit (pystr "1Z")]],
   Atom.rep dashSpaceC 0 none, Atom.rep isAsciiDigit 6 (some 20), Atom.wb]

/-- `\b(?:TXN|ORD|ID|REF|CASE|EMP|CUS|EXT|SBI|AMZ|WIN|CB|LOAN|KYC|FRD|BILL)[\-\s]?[A-Z0-9]{4,20}\b`, IGNORECASE. -/
def id_pattern : List Atom :=
  [Atom.wb,
   Atom.alts ([pystr "TXN", pystr "ORD", pystr "ID", pystr "REF", pystr "CASE",
               pystr "EMP", pystr "CUS", pystr "EXT", pystr "SBI", pystr "AMZ",
               pystr "WIN", pystr "CB", pystr "LOAN", pystr "KYC", pystr "FRD",
               pystr "BILL"].map (fun t => [Atom.ilit t])),
   Atom.rep dashSpaceC 0 (some 1), Atom.rep alnumCiC 4 (some 20), Atom.wb]

/-- `\b(?:ORDER|ORDERID|ORDER\s*NO|ORDER#|OID)[\s#-]*[A-Z0-9]{6,20}\b`, IGNORECASE. -/
def order_pattern : List Atom :=
  [Atom.wb,
   Atom.alts [[Atom.ilit (pystr "ORDER")], [Atom.ilit (pystr "ORDERID")],
              [Atom.ilit (pystr "ORDER"), Atom.rep isPySpace 0 none, Atom.ilit (pystr "NO")],
              [Atom.ilit (pystr "ORDER#")], [Atom.ilit (pystr "OID")]],
   Atom.rep spaceHashDashC 0 none, Atom.rep alnumCiC 6 (some 20), Atom.wb]

/-- `\b\d{4}\s?\d{4}\s?\d{4}\b` -/
def aadhar_pattern : List Atom :=
  [Atom.wb, Atom.rep isAsciiDigit 4 (some 4), Atom.rep isPySpace 0 (some 1),
   Atom.rep isAsciiDigit 4 (some 4), Atom.rep isPySpace 0 (some 1),
   Atom.rep isAsciiDigit 4 (some 4), Atom.wb]

/-- `\b[A-Z]{5}[0-9]{4}[A-Z]{1}\b` -/
def pan_pattern : List Atom :=
  [Atom.wb, Atom.rep upperC 5 (some 5), Atom.rep isAsciiDigit 4 (some 4),
   Atom.rep upperC 1 (some 1), Atom.wb]

/-- `\b[A-Z]{4}0[A-Z0-9]{6}\b` -/
def ifsc_pattern : List Atom :=
  [Atom.wb, Atom.rep upperC 4 (some 4), Atom.lit (pystr "0"),
   Atom.rep upperDigitC 6 (some 6), Atom.wb]

-- sanity checks for the matcher (kernel-evaluated)
example : findAll phone_pattern_indian (pystr "9876543210 and +91-9876543210") =
    [pystr "9876543210", pystr "+91-9876543210"] := by decide
example : findAll phone_intl (pystr "9876543210 and +91-9876543210") =
    [pystr "+91-9876543210"] := by decide
example : findAll url_pattern (pystr "go to http://win.example.com now") =
    [pystr "http://win.example.com"] := by decide
example : findAll credit_card_pattern (pystr "card 4111111111111111 ok") =
    [pystr "4111111111111111"] := by decide

/-! ### Narrow UPI pattern with its capturing provider group

`[a-zA-Z0-9.\-_]{2,256}@(oksbi|okaxis|...)` under `re.IGNORECASE`.  The
pattern has exactly one capturing group, so `re.findall` returns the matched
provider suffix, not the whole handle.  The local-part class excludes `@`,
so the greedy munch is deterministic. -/

def upiProviders : List Str :=
  [pystr "oksbi", pystr "okaxis", pystr "okhdfcbank", pystr "okicici",
   pystr "okbob", pystr "oksbi", pystr "paytm", pystr "phonepe", pystr "ybl",
   pystr "paypal", pystr "okbiz", pystr "upi", pystr "payzapp", pystr "bms",
   pystr "dmrc", pystr "ola", pystr "swiggy", pystr "zomato", pystr "amazon",
   pystr "google", pystr "okhdfcbank", pystr "sbi", pystr "axis", pystr "icici",
   pystr "hdfc", pystr "pnb", pystr "bob", pystr "kotak", pystr "idfc",
   pystr "yesbank", pystr "indus", pystr "kotak", pystr "union", pystr "canara",
   pystr "bandhan", pystr "federal", pystr "southindian", pystr "karur",
   pystr "cityunion", pystr "indianoverseas", pystr "saraswat", pystr "abhyuday",
   pystr "apnas", pystr "barodampay", pystr "cmsidfc", pystr "equitas",
   pystr "esaf", pystr "finobank", pystr "hsbc", pystr "jupiter", pystr "kbl",
   pystr "kmb", pystr "nsdl", pystr "pnb", pystr "purvanchal", pystr "rajasthan",
   pystr "tmb", pystr "uco", pystr "ujjivan", pystr "union", pystr "utbi"]

/-- First provider literal (in source order) that is a case-insensitive
prefix of `s`, with its length. -/
def providerHit : List Str → Str → Option Nat
  | [], _ => none
  | p :: ps, s => if isCIPrefixOf p s then some p.length else providerHit ps s

/-- Try the narrow UPI pattern at the current position; on success return the
total match length and the provider group's text (original casing). -/
def upiNarrowAt (s : Str) : Option (Nat × Str) :=
  let n := countWhileCap upiLocalC 256 s
  if n < 2 then none
  else
    match s.drop n with
    | '@' :: rest =>
        match providerHit upiProviders rest with
        | some plen => some (n + 1 + plen, rest.take plen)
        | none => none
    | _ => none

def scanUpiNarrow : Nat → Str → List Str
  | 0, _ => []
  | Nat.succ f, s =>
      match upiNarrowAt s with
      | some (len, grp) => grp :: scanUpiNarrow f (s.drop len)
      | none =>
          match s with
          | [] => []
          | _ :: cs => scanUpiNarrow f cs

/-- `re.findall(upi_pattern, text, re.IGNORECASE)` — the group-returning narrow UPI search. -/
def findAllUpiNarrow (s : Str) : List Str := scanUpiNarrow (s.length + 1) s

/-! ### `sorted(list(set(...)))` -/

/-- Python's `sorted(list(set(l)))`: drop duplicates, then sort
lexicographically (code-point order on `List Char` matches Python's string
comparison). -/
def dedupSort (l : List Str) : List Str :=
  (l.dedup).insertionSort (· ≤ ·)

/-! ### `extract_entities` -/

/-- The suspicious-keyword lexicon, in source order. -/
def suspicious_keywords_list : List Str :=
  [pystr "urgent", pystr "verify", pystr "block", pystr "suspend", pystr "kyc",
   pystr "pan", pystr "aadhar", pystr "win", pystr "lottery", pystr "expired",
   pystr "otp", pystr "pin", pystr "cvv", pystr "expiry", pystr "code",
   pystr "cbi", pystr "police", pystr "customs", pystr "drugs", pystr "seized",
   pystr "arrest", pystr "warrant", pystr "electricity", pystr "bill",
   pystr "disconnect", pystr "prepaid", pystr "task", pystr "cashback",
   pystr "account", pystr "compromised", pystr "fraud", pystr "unauthorized",
   pystr "transaction", pystr "claim", pystr "prize", pystr "winner",
   pystr "selected", pystr "lucky", pystr "offer", pystr "limited"]

/-- Phone normalization: strip non-digits; a 10-digit number starting with
6–9 gets the `91` country code prepended. -/
def normalizePhone (p : Str) : Str :=
  let norm := stripNonDigits p
  if norm.length == 10 &&
      (match norm with
       | c :: _ => c == '6' || c == '7' || c == '8' || c == '9'
       | [] => false) then
    pystr "91" ++ norm
  else norm

/-- The phone normalize/deduplicate loop: returns the cleaned surface strings
(in first-seen order, stripped) and the set of seen normalized forms. -/
def buildPhones : List Str → List Str → List Str × List Str
  | [], seen => ([], seen)
  | p :: rest, seen =>
      let norm := normalizePhone p
      if !(seen.contains norm) && decide (10 ≤ norm.length) then
        let r := buildPhones rest (norm :: seen)
        (stripStr p :: r.fst, r.snd)
      else buildPhones rest seen

/-- `b` collides with a recognized phone: substring/superstring match of the
digit form of any cleaned phone. -/
def isPhoneCollision (cleanPhones : List Str) (b : Str) : Bool :=
  cleanPhones.any (fun ph =>
    let pd := stripNonDigits ph
    containsSub b pd || containsSub pd b)

/-- The bank-account filter loop: drop length-12 runs (Aadhaar), phone
collisions, and runs equal to a seen normalized phone. -/
def buildBanks (banksRaw cleanPhones seen : List Str) : List Str :=
  banksRaw.filter (fun b =>
    !(b.length == 12) && !(isPhoneCollision cleanPhones b) && !(seen.contains b))

/-- The credit-card prefix gate on the digit form (`digits[0]`, `digits[:2]`,
`digits[:4]` checks of the source). -/
def ccPrefixOk (d : Str) : Bool :=
  (d.take 1 == pystr "4") || (d.take 1 == pystr "5") ||
    (d.take 2 == pystr "34") || (d.take 2 == pystr "37") || (d.take 2 == pystr "65") ||
    (d.take 2 == pystr "60") || (d.take 2 == pystr "64") ||
    (d.take 4 == pystr "6011")

/-- Acceptance test of one credit-card candidate: 16 digits, valid prefix,
not the all-zero sentinel. -/
def ccAccept (cc : Str) : Bool :=
  let digits := stripNonDigits cc
  digits.length == 16 && ccPrefixOk digits && !(digits == pystr "0000000000000000")

/-- `extract_entities(text)` of the source: the returned dict, as an
association list in the source's insertion order.  Falsy (empty) text
returns the empty dict. -/
def extract_entities (text : Str) : List (String × List Str) :=
  if text.isEmpty then []
  else
    let emails := findAll email_pattern text
    let upisNarrow := findAllUpiNarrow text
    let upis := if upisNarrow.isEmpty then findAll upi_pattern_broad text else upisNarrow
    let urls := findAll url_pattern text
    let phones_indian := findAll phone_pattern_indian text
    let phones_us := findAll phone_pattern_us text
    let phones_tollfree := findAll phone_pattern_tollfree text
    let phones_intl := findAll phone_intl text
    let all_phones := phones_indian ++ phones_us ++ phones_tollfree ++ phones_intl
    let credit_cards := findAll credit_card_pattern text
    let valid_credit_cards := credit_cards.filter ccAccept
    let bitcoins := findAll bitcoin_pattern_legacy text ++ findAll bitcoin_pattern_bech32 text
    let telegrams := findAll telegram_pattern text
    let trackings := findAll tracking_pattern text
    let ids_found := findAll id_pattern text
    let orders := findAll order_pattern text
    let aadhars := findAll aadhar_pattern text
    let pans := findAll pan_pattern text
    let ifscs := findAll ifsc_pattern text
    let banks_raw := findAll bank_account_pattern text
    let cp := buildPhones all_phones []
    let clean_phones := cp.fst
    let seen_phones := cp.snd
    let clean_banks := buildBanks banks_raw clean_phones seen_phones
    let found_keywords :=
      suspicious_keywords_list.filter (fun w => containsSub w (lowerStr text))
    [("phoneNumbers", dedupSort clean_phones),
     ("bankAccounts", dedupSort clean_banks),
     ("upiIds", dedupSort upis),
     ("phishingLinks", dedupSort urls),
     ("emailAddresses", dedupSort emails),
     ("creditCards", dedupSort valid_credit_cards),
     ("bitcoinAddresses", dedupSort bitcoins),
     ("telegramIds", dedupSort telegrams),
     ("trackingNumbers", dedupSort trackings),
     ("ids", dedupSort (ids_found ++ orders)),
     ("aadharNumbers", dedupSort aadhars),
     ("panNumbers", dedupSort pans),
     ("ifscCodes", dedupSort ifscs),
     ("suspiciousKeywords", found_keywords)]

/-- `extract_entities` at the call boundary: Python's `Optional[str]` input.
`None` is falsy, so it takes the same early-return branch as `""`. -/
def extract_entities_opt (text : Option Str) : List (String × List Str) :=
  extract_entities (text.getD [])

-- sanity: the phone claim's concrete input end-to-end
example : (extract_entities (pystr "9876543210 and +91-9876543210")).lookup "phoneNumbers" =
    some [pystr "9876543210"] := by decide
example : (extract_entities (pystr "pay to me@paytm today")).lookup "upiIds" =
    some [pystr "paytm"] := by decide

/-! ### `predict_scam`

Tier 1 (the optional trained classifier) is abstracted as `ml : Option (Str →
Bool)`: `some f` means the classifier and vectorizer are loaded and `f text`
tells whether the predicted label's string form is in the scam label set;
`none` covers the artifacts being absent or the tier raising (caught and
treated as tier absent).  Tier 2 is the keyword fallback, embedded exactly. -/

def scam_fallback_keywords : List Str :=
  [pystr "bank", pystr "verify", pystr "blocked", pystr "lottery",
   pystr "winner", pystr "prize", pystr "urgent", pystr "credit card",
   pystr "kyc", pystr "update", pystr "otp", pystr "pin", pystr "cvv",
   pystr "expiry", pystr "cbi", pystr "police", pystr "customs",
   pystr "narcotics", pystr "seized", pystr "arrest", pystr "warrant",
   pystr "electricity", pystr "disconnect", pystr "meter", pystr "job",
   pystr "task", pystr "prepaid", pystr "youtube", pystr "review",
   pystr "fedex", pystr "courier", pystr "parcel"]

/-- `any(k in text for k in ks)` over a lower-cased text. -/
def keywordHit (ks : List Str) (t : Str) : Bool :=
  ks.any (fun k => containsSub k t)

def predict_scam (ml : Option (Str → Bool)) (text : Str) : Bool :=
  (match ml with | some f => f text | none => false) ||
    keywordHit scam_fallback_keywords (lowerStr text)

/-! ### Persona routing -/

/-- The `PERSONAS` dict keys, in insertion order. -/
def personaKeys : List Str :=
  [pystr "grandma", pystr "student", pystr "skeptic", pystr "parent"]

def hinglish_markers : List Str :=
  [pystr "bhai", pystr "bha", pystr "haan", pystr "haanji", pystr "kya",
   pystr "kyu", pystr "nahi", pystr "nahin", pystr "sir ji", pystr "beta",
   pystr "paise", pystr "paisa", pystr "upi", pystr "karo", pystr "kar do",
   pystr "jaldi"]

def authority_markers : List Str :=
  [pystr "cbi", pystr "police", pystr "cyber", pystr "arrest", pystr "court",
   pystr "customs", pystr "narcotics", pystr "parcel", pystr "legal",
   pystr "section"]

def money_markers : List Str :=
  [pystr "lottery", pystr "loan", pystr "job", pystr "offer", pystr "task",
   pystr "telegram", pystr "earn", pystr "salary", pystr "reward"]

def bank_markers : List Str :=
  [pystr "kyc", pystr "bank", pystr "account", pystr "otp", pystr "blocked",
   pystr "freeze", pystr "pan", pystr "aadhar", pystr "ifsc",
   pystr "electricity", pystr "bill", pystr "anydesk", pystr "teamviewer",
   pystr "virus"]

/-- `_heuristic_persona_and_language(text)`. -/
def heuristic_persona_and_language (text : Str) : Str × Str :=
  let lower := lowerStr text
  let language := if keywordHit hinglish_markers lower then pystr "hinglish" else pystr "english"
  if keywordHit authority_markers lower then (pystr "skeptic", language)
  else if keywordHit money_markers lower then (pystr "student", language)
  else if keywordHit bank_markers lower then (pystr "grandma", language)
  else (pystr "parent", language)

/-- The persona-selection loop over `PERSONAS.keys()`: first key contained in
the first token wins; the preset default `"grandma"` stands otherwise. -/
def pickPersona : List Str → Str → Str
  | [], _ => pystr "grandma"
  | p :: ps, part0 => if containsSub p part0 then p else pickPersona ps part0

/-- `select_persona_and_language(text)`.  `llmResp = some r` is the LLM
replying with text `r`; `none` covers the model being unconfigured and any
exception in the call or parse (both return the heuristic). -/
def select_persona_and_language (llmResp : Option Str) (text : Str) : Str × Str :=
  match llmResp with
  | none => heuristic_persona_and_language text
  | some resp =>
      let result := lowerStr (stripStr resp)
      let parts := splitPipe result
      let selected_persona := pickPersona personaKeys (parts.headD [])
      let selected_language :=
        match parts with
        | _ :: p1 :: _ =>
            if containsSub (pystr "hinglish") p1 || containsSub (pystr "hindi") p1 then
              pystr "hinglish"
            else pystr "english"
        | _ => pystr "english"
      (selected_persona, selected_language)

/-! ### The scam-type cascade of `check_and_send_callback` -/

def sextortion_keywords : List Str :=
  [pystr "bitcoin", pystr "crypto", pystr "blackmail", pystr "video",
   pystr "extortion", pystr "private videos"]

def digital_arrest_keywords : List Str :=
  [pystr "police", pystr "cbi", pystr "arrest", pystr "warrant", pystr "court",
   pystr "narcotics", pystr "trafficking", pystr "digital arrest"]

def courier_keywords : List Str :=
  [pystr "parcel", pystr "courier", pystr "dhl", pystr "customs", pystr "duty",
   pystr "held at customs"]

def utility_keywords : List Str :=
  [pystr "electricity", pystr "power", pystr "bill", pystr "disconnect",
   pystr "unpaid bill", pystr "power cut"]

def kyc_keywords : List Str :=
  [pystr "kyc", pystr "aadhaar", pystr "pan card", pystr "update kyc",
   pystr "kyc update"]

def job_keywords : List Str :=
  [pystr "job", pystr "hiring", pystr "work from home", pystr "salary",
   pystr "earn money", pystr "employment", pystr "urgent hiring"]

def loan_keywords : List Str :=
  [pystr "loan", pystr "credit", pystr "loan approved", pystr "pre-approved",
   pystr "instant loan", pystr "emi"]

def upi_fraud_keywords : List Str :=
  [pystr "upi", pystr "cashback", pystr "paytm", pystr "phonepe",
   pystr "google pay", pystr "upi id"]

def lottery_keywords : List Str :=
  [pystr "lottery", pystr "winner", pystr "prize", pystr "won",
   pystr "lucky draw", pystr "congratulations you won"]

def bank_fraud_keywords : List Str :=
  [pystr "bank", pystr "sbi", pystr "account compromised",
   pystr "account blocked", pystr "share otp", pystr "unauthorized transaction"]

def phishing_keywords : List Str :=
  [pystr "amazon", pystr "flipkart", pystr "order confirmed", pystr "delivery",
   pystr "click here", pystr "claim prize", pystr "iphone won"]

/-- The ordered scam-type cascade over the lower-cased current message text
(`if`/`elif` chain of the source; default `"Unknown"`). -/
def scam_type_of (msgText : Str) : String :=
  let full_text := lowerStr msgText
  if keywordHit sextortion_keywords full_text then "Sextortion"
  else if keywordHit digital_arrest_keywords full_text then "Digital Arrest"
  else if keywordHit courier_keywords full_text then "Courier Scam"
  else if keywordHit utility_keywords full_text then "Utility Scam"
  else if keywordHit kyc_keywords full_text then "KYC Scam"
  else if keywordHit job_keywords full_text then "Job Scam"
  else if keywordHit loan_keywords full_text then "Loan Scam"
  else if keywordHit upi_fraud_keywords full_text then "UPI Fraud"
  else if keywordHit lottery_keywords full_text then "Lottery Scam"
  else if keywordHit bank_fraud_keywords full_text then "Bank Fraud"
  else if keywordHit phishing_keywords full_text then "Phishing"
  else "Unknown"

/-! ### Requests, session state and the orchestrator -/

structure Msg where
  sender : Str
  text : Str
  timestamp : Int

structure AnalyzeRequest where
  sessionId : Str
  message : Msg
  conversationHistory : List Msg

/-- One session's entry of the global `session_state` dict (the wall-clock
`start_time` only feeds the reported duration, not any decision modelled
here, and is omitted). -/
structure SessionState where
  persona : Str
  language : Str
  questions_asked : Nat
  red_flags : List Str
  elicitation_attempts : Nat
  turn_count : Nat

def elicitation_keywords : List Str :=
  [pystr "phone", pystr "number", pystr "contact", pystr "email",
   pystr "account", pystr "upi", pystr "id", pystr "send me"]

/-- `if X not in l: l.append(X)`. -/
def appendIfAbsent (flag : Str) (l : List Str) : List Str :=
  if l.contains flag then l else l ++ [flag]

/-- The session create/update block of `analyze` (executed only on the
scam-like path).  `route` abstracts `select_persona_and_language`. -/
def updateSessionState (route : Str → Str × Str) (st : Option SessionState)
    (req : AnalyzeRequest) : SessionState :=
  let st0 :=
    match st with
    | some s => s
    | none =>
        let pl := route req.message.text
        { persona := pl.fst, language := pl.snd, questions_asked := 0,
          red_flags := [], elicitation_attempts := 0, turn_count := 0 }
  let turn := req.conversationHistory.length + 1
  let our_messages :=
    (req.conversationHistory.filter
      (fun m => m.sender == pystr "user" || m.sender == pystr "agent")).map Msg.text
  let questions_count := (our_messages.filter (fun t => containsSub (pystr "?") t)).length
  let qa := max questions_count st0.questions_asked
  let msg_lower := lowerStr req.message.text
  let rf1 :=
    if containsSub (pystr "urgent") msg_lower || containsSub (pystr "immediately") msg_lower then
      appendIfAbsent (pystr "Urgency") st0.red_flags
    else st0.red_flags
  let rf2 :=
    if containsSub (pystr "otp") msg_lower || containsSub (pystr "pin") msg_lower then
      appendIfAbsent (pystr "OTP Request") rf1
    else rf1
  let rf3 :=
    if containsSub (pystr "http") msg_lower || containsSub (pystr "link") msg_lower ||
        containsSub (pystr ".com") msg_lower then
      appendIfAbsent (pystr "Suspicious Link") rf2
    else rf2
  let rf4 := if turn ≤ 2 then appendIfAbsent (pystr "Unsolicited Contact") rf3 else rf3
  let elic :=
    if elicitation_keywords.any (fun kw => containsSub kw msg_lower) then
      st0.elicitation_attempts + 1
    else st0.elicitation_attempts
  { persona := st0.persona, language := st0.language, questions_asked := qa,
    red_flags := rf4, elicitation_attempts := elic, turn_count := turn }

/-- `(request.message.text or "") + " " + " ".join(m.text or "" for m in history)`. -/
def full_text_of (req : AnalyzeRequest) : Str :=
  req.message.text ++ (' ' :: joinSpace (req.conversationHistory.map Msg.text))

/-- `bool(entities.get("bankAccounts") or entities.get("upiIds") or
entities.get("phishingLinks"))`. -/
def has_critical_info (entities : List (String × List Str)) : Bool :=
  !((entities.lookup "bankAccounts").getD []).isEmpty ||
    !((entities.lookup "upiIds").getD []).isEmpty ||
    !((entities.lookup "phishingLinks").getD []).isEmpty

/-- The reporting gate of `check_and_send_callback`: scam flag from the
orchestrator's `analysis_result`, and either enough messages or critical
extracted intelligence. -/
def callback_gate (history : List Msg) (scamDetected : Bool)
    (entities : List (String × List Str)) : Bool :=
  let total_messages := history.length + 1
  scamDetected && (decide (4 ≤ total_messages) || has_critical_info entities)

/-- Observable outcome of one `analyze` call: classification, whether the
fixed disengagement reply was returned, the session entry after the call,
whether the callback task was scheduled, and whether that task's gate passes
(a report is POSTed). -/
structure AnalyzeResult where
  is_scam : Bool
  disengaged : Bool
  newState : Option SessionState
  callbackScheduled : Bool
  reportSent : Bool

/-- The `analyze` orchestration for one session: classification (`predict_scam`
OR non-empty history), entity aggregation over the full text, session
create/update and reply choice on the scam-like path, and the scheduled
callback's gate (`analysis_result` carries `scam_detected = True` and the
aggregated entities). -/
def analyzeModel (ml : Option (Str → Bool)) (route : Str → Str × Str)
    (st : Option SessionState) (req : AnalyzeRequest) : AnalyzeResult :=
  let current_msg_is_scam := predict_scam ml req.message.text
  let has_history := !req.conversationHistory.isEmpty
  let is_scam := current_msg_is_scam || has_history
  let all_entities := extract_entities (full_text_of req)
  if is_scam then
    { is_scam := true, disengaged := false,
      newState := some (updateSessionState route st req),
      callbackScheduled := true,
      reportSent := callback_gate req.conversationHistory true all_entities }
  else
    { is_scam := false, disengaged := true, newState := st,
      callbackScheduled := false, reportSent := false }

/-- A sequence of `analyze` calls for one session id, threading the session
entry. -/
def runCalls (ml : Option (Str → Bool)) (route : Str → Str × Str)
    (st : Option SessionState) : List AnalyzeRequest → Option SessionState
  | [] => st
  | r :: rs => runCalls ml route (analyzeModel ml route st r).newState rs

/-! ### Generic facts about the building blocks -/

/-- `sorted(list(set(l)))` is sorted in the lexicographic string order. -/
lemma dedupSort_sorted (l : List Str) : List.Sorted (· ≤ ·) (dedupSort l) :=
  List.sorted_insertionSort _ _

/-- `sorted(list(set(l)))` has no duplicates. -/
lemma dedupSort_nodup (l : List Str) : (dedupSort l).Nodup :=
  (List.perm_insertionSort _ l.dedup).nodup_iff.mpr (List.nodup_dedup l)

/-- The suspicious-keyword lexicon has no duplicate entries, so the filtered
result is duplicate-free even though the source only applies `set`. -/
lemma suspicious_keywords_nodup : suspicious_keywords_list.Nodup := by decide

/-- The names of the fixed extraction categories, in the source dict's order. -/
def categoryNames : List String :=
  ["phoneNumbers", "bankAccounts", "upiIds", "phishingLinks", "emailAddresses",
   "creditCards", "bitcoinAddresses", "telegramIds", "trackingNumbers", "ids",
   "aadharNumbers", "panNumbers", "ifscCodes", "suspiciousKeywords"]

/-! ### C2 -/

/-- C2 counterexample: for empty text the source returns the empty dict `{}`,
so no category name is present at all — in particular `phoneNumbers` does not
map to an empty sequence, it is absent. -/
theorem c2_empty_text_categories_absent :
    (extract_entities []).lookup "phoneNumbers" = none ∧
      extract_entities [] = [] ∧ extract_entities_opt none = [] := by
  refine ⟨rfl, rfl, rfl⟩

/-- C2 (amended): `extract` is total (never raises — it is a function in this
model); empty or absent text yields the *empty mapping* (all categories
absent, which defaulting callers read as all-empty), while every non-empty
text yields a mapping with all fourteen fixed categories present. -/
theorem c2_extract_empty_shape (t : Str) :
    (t.isEmpty = true → extract_entities t = []) ∧
      (t.isEmpty = false →
        (categoryNames.all fun c => ((extract_entities t).lookup c).isSome) = true) := by
  constructor
  · intro h
    simp [extract_entities, h]
  · intro h
    simp [extract_entities, h, categoryNames, List.lookup]

/-- Witness for `c2_extract_empty_shape` at the one-character text `"a"`. -/
theorem c2_extract_empty_shape_witness :
    (categoryNames.all fun c => ((extract_entities (pystr "a")).lookup c).isSome) = true :=
  (c2_extract_empty_shape (pystr "a")).2 rfl

/-! ### C4 -/

/-- C4 (amended): in every non-trivial extraction result, every category
sequence is deduplicated, and every category except `suspiciousKeywords` is
additionally returned lexicographically sorted; `suspiciousKeywords` is the
keyword filter passed through `list(set(...))` with no sort (the model keeps
the lexicon's member order, one faithful resolution of Python's unspecified
set iteration order). -/
theorem c4_categories_nodup_sorted (t : Str) (name : String) (l : List Str)
    (hmem : (name, l) ∈ extract_entities t) :
    l.Nodup ∧ (name ≠ "suspiciousKeywords" → List.Sorted (· ≤ ·) l) := by
  by_cases ht : t.isEmpty
  · simp [extract_entities, ht] at hmem
  · rw [extract_entities, if_neg (by simp [ht])] at hmem
    simp only [List.mem_cons, List.not_mem_nil, or_false, Prod.mk.injEq] at hmem
    rcases hmem with ⟨h1, h2⟩ | ⟨h1, h2⟩ | ⟨h1, h2⟩ | ⟨h1, h2⟩ | ⟨h1, h2⟩ | ⟨h1, h2⟩ |
      ⟨h1, h2⟩ | ⟨h1, h2⟩ | ⟨h1, h2⟩ | ⟨h1, h2⟩ | ⟨h1, h2⟩ | ⟨h1, h2⟩ | ⟨h1, h2⟩ | ⟨h1, h2⟩ <;>
    subst h1 <;> subst h2
    case _ => exact ⟨dedupSort_nodup _, fun _ => dedupSort_sorted _⟩
    case _ => exact ⟨dedupSort_nodup _, fun _ => dedupSort_sorted _⟩
    case _ => exact ⟨dedupSort_nodup _, fun _ => dedupSort_sorted _⟩
    case _ => exact ⟨dedupSort_nodup _, fun _ => dedupSort_sorted _⟩
    case _ => exact ⟨dedupSort_nodup _, fun _ => dedupSort_sorted _⟩
    case _ => exact ⟨dedupSort_nodup _, fun _ => dedupSort_sorted _⟩
    case _ => exact ⟨dedupSort_nodup _, fun _ => dedupSort_sorted _⟩
    case _ => exact ⟨dedupSort_nodup _, fun _ => dedupSort_sorted _⟩
    case _ => exact ⟨dedupSort_nodup _, fun _ => dedupSort_sorted _⟩
    case _ => exact ⟨dedupSort_nodup _, fun _ => dedupSort_sorted _⟩
    case _ => exact ⟨dedupSort_nodup _, fun _ => dedupSort_sorted _⟩
    case _ => exact ⟨dedupSort_nodup _, fun _ => dedupSort_sorted _⟩
    case _ => exact ⟨dedupSort_nodup _, fun _ => dedupSort_sorted _⟩
    case _ =>
      exact ⟨List.Nodup.filter _ suspicious_keywords_nodup, fun hne => absurd rfl hne⟩

/-- Witness for `c4_categories_nodup_sorted`: the phone category of a
concrete extraction is duplicate-free and sorted. -/
theorem c4_categories_nodup_sorted_witness :
    (dedupSort [pystr "9876543210"]).Nodup ∧
      List.Sorted (· ≤ ·) (dedupSort [pystr "9876543210"]) := by
  have h := c4_categories_nodup_sorted (pystr "9876543210") "phoneNumbers"
    (dedupSort [pystr "9876543210"]) (by decide)
  exact ⟨h.1, h.2 (by decide)⟩

/-- C4 counterexample: extracting from `"verify block"` yields the
suspicious-keyword list `["verify", "block"]`, which is not sorted — the
source never sorts this category. -/
theorem c4_suspicious_keywords_unsorted_cex :
    (extract_entities (pystr "verify block")).lookup "suspiciousKeywords" =
        some [pystr "verify", pystr "block"] ∧
      ¬ List.Sorted (· ≤ ·) [pystr "verify", pystr "block"] := by
  constructor
  · decide
  · decide

/-! ### C3 -/

lemma pySpace_not_digit (c : Char) (hc : isPySpace c = true) : c.isDigit = false := by
  simp only [isPySpace, Bool.or_eq_true, beq_iff_eq] at hc
  rcases hc with ((((rfl | rfl) | rfl) | rfl) | rfl) | rfl <;> rfl

lemma filter_digit_dropWhile (s : Str) :
    (s.dropWhile isPySpace).filter Char.isDigit = s.filter Char.isDigit := by
  induction s with
  | nil => rfl
  | cons c cs ih =>
      by_cases hq : isPySpace c = true
      · simp [List.dropWhile_cons, List.filter_cons, hq, pySpace_not_digit c hq, ih]
      · simp [List.dropWhile_cons, hq]

/-- `str.strip()` does not change the digit content of a string. -/
lemma stripNonDigits_stripStr (s : Str) : stripNonDigits (stripStr s) = stripNonDigits s := by
  unfold stripNonDigits stripStr
  rw [List.filter_reverse, filter_digit_dropWhile, List.filter_reverse,
    filter_digit_dropWhile, List.reverse_reverse]

lemma normalizePhone_stripStr (p : Str) : normalizePhone (stripStr p) = normalizePhone p := by
  simp [normalizePhone, stripNonDigits_stripStr]

/-- The phone cleaning loop admits each normalized form at most once: output
surface strings have pairwise distinct normalized forms, and none of them
normalizes into the incoming seen-set. -/
lemma buildPhones_spec (ps : List Str) :
    ∀ seen : List Str,
      ((buildPhones ps seen).fst.Pairwise fun a b => normalizePhone a ≠ normalizePhone b) ∧
        ∀ a ∈ (buildPhones ps seen).fst, normalizePhone a ∉ seen := by
  induction ps with
  | nil => intro seen; simp [buildPhones]
  | cons p rest ih =>
      intro seen
      by_cases hc : (!(seen.contains (normalizePhone p)) &&
          decide (10 ≤ (normalizePhone p).length)) = true
      · have hrec := ih (normalizePhone p :: seen)
        have hout : buildPhones (p :: rest) seen =
            (stripStr p :: (buildPhones rest (normalizePhone p :: seen)).fst,
              (buildPhones rest (normalizePhone p :: seen)).snd) := by
          simp only [buildPhones, hc, if_true]
        rw [hout]
        constructor
        · refine List.Pairwise.cons ?_ hrec.1
          intro b hb
          rw [normalizePhone_stripStr]
          intro he
          exact hrec.2 b hb (he ▸ List.mem_cons_self _ _)
        · intro a ha
          rcases List.mem_cons.mp ha with rfl | ha'
          · rw [normalizePhone_stripStr]
            intro hm
            have h1 : seen.contains (normalizePhone p) = true :=
              List.elem_eq_true_of_mem hm
            rw [h1] at hc
            simp at hc
          · intro hm
            exact hrec.2 a ha' (List.mem_cons_of_mem _ hm)
      · have hout : buildPhones (p :: rest) seen = buildPhones rest seen := by
          simp only [buildPhones]
          rw [if_neg (by simpa using hc)]
        rw [hout]
        refine ⟨(ih seen).1, (ih seen).2⟩

/-- C3: extracting from `"9876543210 and +91-9876543210"` yields exactly one
phone entry (the four sub-pattern results are concatenated, normalized by
stripping non-digits with the `91` code prepended to bare 10-digit mobiles,
and deduplicated on the normalized form — in general the cleaned list never
contains two entries with the same normalized form). -/
theorem c3_phone_dedup :
    ((extract_entities (pystr "9876543210 and +91-9876543210")).lookup "phoneNumbers" =
        some [pystr "9876543210"]) ∧
      (normalizePhone (pystr "9876543210") = pystr "919876543210") ∧
      (normalizePhone (pystr "+91-9876543210") = pystr "919876543210") ∧
      ∀ ps : List Str,
        (buildPhones ps []).fst.Pairwise fun a b => normalizePhone a ≠ normalizePhone b := by
  refine ⟨by decide, by decide, by decide, ?_⟩
  intro ps
  exact (buildPhones_spec ps []).1

/-! ### C8 -/

/-- C8: a 16-digit candidate enters `creditCards` iff its digit form passes
the prefix gate (`4…`, `5…`, two-digit prefix in 34/37/65/60/64, or `6011…`)
and is not all zeros; concretely, a 16-digit run starting `4` is matched and
accepted while an identical run starting `9` is matched as a candidate but
rejected. -/
theorem c8_credit_card_prefix_gate :
    (findAll credit_card_pattern (pystr "card 4111111111111111") =
        [pystr "4111111111111111"]) ∧
      ((extract_entities (pystr "card 4111111111111111")).lookup "creditCards" =
        some [pystr "4111111111111111"]) ∧
      (findAll credit_card_pattern (pystr "card 9111111111111111") =
        [pystr "9111111111111111"]) ∧
      ((extract_entities (pystr "card 9111111111111111")).lookup "creditCards" = some []) ∧
      ∀ cc : Str, ccAccept cc = true ↔
        ((stripNonDigits cc).length = 16 ∧
          ((stripNonDigits cc).take 1 = pystr "4" ∨ (stripNonDigits cc).take 1 = pystr "5" ∨
            (stripNonDigits cc).take 2 = pystr "34" ∨ (stripNonDigits cc).take 2 = pystr "37" ∨
            (stripNonDigits cc).take 2 = pystr "65" ∨ (stripNonDigits cc).take 2 = pystr "60" ∨
            (stripNonDigits cc).take 2 = pystr "64" ∨
            (stripNonDigits cc).take 4 = pystr "6011") ∧
          stripNonDigits cc ≠ pystr "0000000000000000") := by
  refine ⟨by decide, by decide, by decide, by decide, ?_⟩
  intro cc
  simp [ccAccept, ccPrefixOk, Bool.and_eq_true, Bool.or_eq_true, beq_iff_eq,
    Bool.not_eq_true', beq_eq_false_iff_ne, ne_eq, and_assoc, or_assoc]

/-! ### C1 -/

/-- A single-turn scam-classified request with no bank/UPI/link entities. -/
def reqLotteryNoLink : AnalyzeRequest :=
  { sessionId := pystr "s1",
    message := { sender := pystr "scammer", text := pystr "you won a lottery", timestamp := 0 },
    conversationHistory := [] }

/-- The same single-turn request with a link added to the message. -/
def reqLotteryLink : AnalyzeRequest :=
  { sessionId := pystr "s1",
    message := { sender := pystr "scammer",
                 text := pystr "you won a lottery http://win.example.com", timestamp := 0 },
    conversationHistory := [] }

/-- C1: a report goes out iff the conversation is scam-like AND (history
length + 1 ≥ 4 OR the aggregated extraction holds a bank account, UPI id or
link); concretely, the scam-classified single-turn lottery message triggers
no report while the identical message with a link does. -/
theorem c1_callback_gate :
    (∀ (ml : Option (Str → Bool)) (route : Str → Str × Str)
        (st : Option SessionState) (req : AnalyzeRequest),
      (analyzeModel ml route st req).reportSent =
        ((predict_scam ml req.message.text || !req.conversationHistory.isEmpty) &&
          (decide (4 ≤ req.conversationHistory.length + 1) ||
            has_critical_info (extract_entities (full_text_of req))))) ∧
      predict_scam none (pystr "you won a lottery") = true ∧
      (analyzeModel none heuristic_persona_and_language none reqLotteryNoLink).reportSent
        = false ∧
      (analyzeModel none heuristic_persona_and_language none reqLotteryLink).reportSent
        = true := by
  refine ⟨?_, by decide, by decide, by decide⟩
  intro ml route st req
  cases hs : (predict_scam ml req.message.text || !req.conversationHistory.isEmpty) <;>
    simp [analyzeModel, hs, callback_gate]

/-! ### C5 -/

/-- A message carrying both an authority marker and a money marker. -/
def c5text : Str := pystr "pay the lottery fee now or face arrest"

/-- C5: the local persona heuristic is a first-match-wins priority list —
authority markers select the skeptic, else money markers the student, else
banking markers the elderly persona, else the parent; a text with both
"arrest" and "lottery" goes to the skeptic, never the student. -/
theorem c5_persona_priority :
    (∀ t : Str,
      (keywordHit authority_markers (lowerStr t) = true →
        (heuristic_persona_and_language t).fst = pystr "skeptic") ∧
      (keywordHit authority_markers (lowerStr t) = false →
        keywordHit money_markers (lowerStr t) = true →
        (heuristic_persona_and_language t).fst = pystr "student") ∧
      (keywordHit authority_markers (lowerStr t) = false →
        keywordHit money_markers (lowerStr t) = false →
        keywordHit bank_markers (lowerStr t) = true →
        (heuristic_persona_and_language t).fst = pystr "grandma") ∧
      (keywordHit authority_markers (lowerStr t) = false →
        keywordHit money_markers (lowerStr t) = false →
        keywordHit bank_markers (lowerStr t) = false →
        (heuristic_persona_and_language t).fst = pystr "parent")) ∧
      keywordHit authority_markers (lowerStr c5text) = true ∧
      keywordHit money_markers (lowerStr c5text) = true ∧
      (heuristic_persona_and_language c5text).fst = pystr "skeptic" ∧
      (heuristic_persona_and_language c5text).fst ≠ pystr "student" := by
  refine ⟨?_, by decide, by decide, by decide, by decide⟩
  intro t
  refine ⟨fun h1 => ?_, fun h1 h2 => ?_, fun h1 h2 h3 => ?_, fun h1 h2 h3 => ?_⟩ <;>
    simp [heuristic_persona_and_language, h1] <;> simp [h2] <;> simp [h3]

/-- Witness for `c5_persona_priority`: its priority clauses applied at the
concrete mixed-marker text. -/
theorem c5_persona_priority_witness :
    (heuristic_persona_and_language c5text).fst = pystr "skeptic" :=
  (c5_persona_priority.1 c5text).1 (by decide)

/-! ### C6 -/

/-- A message with both a sextortion keyword and digital-arrest keywords. -/
def c6text : Str := pystr "pay bitcoin or the police will arrest you"

/-- C6: the scam-type inference is a fixed ordered first-match-wins cascade
over the lower-cased current message with the extortion category checked
before authority impersonation, and the unknown category when nothing
matches; a message with both "bitcoin" and "police" is classified as
sextortion, not digital arrest. -/
theorem c6_scam_type_cascade :
    (∀ t : Str,
      (keywordHit sextortion_keywords (lowerStr t) = true →
        scam_type_of t = "Sextortion") ∧
      (keywordHit sextortion_keywords (lowerStr t) = false →
        keywordHit digital_arrest_keywords (lowerStr t) = true →
        scam_type_of t = "Digital Arrest") ∧
      (keywordHit sextortion_keywords (lowerStr t) = false →
        keywordHit digital_arrest_keywords (lowerStr t) = false →
        keywordHit courier_keywords (lowerStr t) = false →
        keywordHit utility_keywords (lowerStr t) = false →
        keywordHit kyc_keywords (lowerStr t) = false →
        keywordHit job_keywords (lowerStr t) = false →
        keywordHit loan_keywords (lowerStr t) = false →
        keywordHit upi_fraud_keywords (lowerStr t) = false →
        keywordHit lottery_keywords (lowerStr t) = false →
        keywordHit bank_fraud_keywords (lowerStr t) = false →
        keywordHit phishing_keywords (lowerStr t) = false →
        scam_type_of t = "Unknown")) ∧
      keywordHit sextortion_keywords (lowerStr c6text) = true ∧
      keywordHit digital_arrest_keywords (lowerStr c6text) = true ∧
      scam_type_of c6text = "Sextortion" := by
  refine ⟨?_, by decide, by decide, by decide⟩
  intro t
  refine ⟨fun h1 => ?_, fun h1 h2 => ?_,
    fun h1 h2 h3 h4 h5 h6 h7 h8 h9 h10 h11 => ?_⟩
  · simp [scam_type_of, h1]
  · simp [scam_type_of, h1, h2]
  · simp [scam_type_of, h1, h2, h3, h4, h5, h6, h7, h8, h9, h10, h11]

/-- Witness for `c6_scam_type_cascade`: the cascade's first clause at the
concrete bitcoin-and-police text. -/
theorem c6_scam_type_cascade_witness : scam_type_of c6text = "Sextortion" :=
  (c6_scam_type_cascade.1 c6text).1 (by decide)

/-! ### C7 -/

/-- An LLM response whose first token holds no persona key and whose second
token holds no regional-language marker. -/
def c7resp : Str := pystr "xyz|english"

/-- A message whose heuristic routing differs from the parse defaults. -/
def c7text : Str := pystr "free lottery offer bhai"

/-- C7 counterexample: a well-formed response with no recognizable persona
key does NOT fall through to the heuristic — the router keeps the parse
defaults (`grandma`, `english`), while the heuristic would give
(`student`, `hinglish`). -/
theorem c7_parse_no_fallback_cex :
    (personaKeys.all fun p =>
        !(containsSub p ((splitPipe (lowerStr (stripStr c7resp))).headD []))) = true ∧
      select_persona_and_language (some c7resp) c7text = (pystr "grandma", pystr "english") ∧
      heuristic_persona_and_language c7text = (pystr "student", pystr "hinglish") ∧
      select_persona_and_language (some c7resp) c7text ≠
        heuristic_persona_and_language c7text := by
  refine ⟨by decide, by decide, by decide, by decide⟩

lemma pickPersona_default (ks : List Str) (part0 : Str)
    (h : (ks.all fun p => !(containsSub p part0)) = true) :
    pickPersona ks part0 = pystr "grandma" := by
  induction ks with
  | nil => rfl
  | cons p ps ih =>
      simp only [List.all_cons, Bool.and_eq_true, Bool.not_eq_true'] at h
      simp [pickPersona, h.1, ih h.2]

/-- C7 (amended): the router falls back to the heuristic exactly when no LLM
response is obtained (model unconfigured, call or parse raising); given a
response, a first token without any persona key keeps the preset default
`grandma`, and a missing second token keeps the preset default `english` —
the unparsed half is defaulted, not routed heuristically. -/
theorem c7_parse_defaults :
    (∀ t : Str, select_persona_and_language none t = heuristic_persona_and_language t) ∧
      (∀ r t : Str,
        (personaKeys.all fun p =>
            !(containsSub p ((splitPipe (lowerStr (stripStr r))).headD []))) = true →
        (select_persona_and_language (some r) t).fst = pystr "grandma") ∧
      (∀ r t : Str, (splitPipe (lowerStr (stripStr r))).length < 2 →
        (select_persona_and_language (some r) t).snd = pystr "english") := by
  refine ⟨fun _ => rfl, fun r t h => ?_, fun r t h => ?_⟩
  · exact pickPersona_default _ _ h
  · simp only [select_persona_and_language]
    cases hp : splitPipe (lowerStr (stripStr r)) with
    | nil => rfl
    | cons a tl =>
        cases tl with
        | nil => rfl
        | cons b tl2 => rw [hp] at h; simp at h; omega

/-- Witness for `c7_parse_defaults`: the grandma default at the concrete
keyless response. -/
theorem c7_parse_defaults_witness :
    (select_persona_and_language (some c7resp) c7text).fst = pystr "grandma" :=
  c7_parse_defaults.2.1 c7resp c7text (by decide)

/-! ### C9 -/

/-- A scam-like first call carrying a four-message history. -/
def reqLongHistory : AnalyzeRequest :=
  { sessionId := pystr "s2",
    message := { sender := pystr "scammer", text := pystr "hi", timestamp := 0 },
    conversationHistory :=
      [{ sender := pystr "scammer", text := pystr "hello", timestamp := 0 },
       { sender := pystr "scammer", text := pystr "hello", timestamp := 0 },
       { sender := pystr "scammer", text := pystr "hello", timestamp := 0 },
       { sender := pystr "scammer", text := pystr "hello", timestamp := 0 }] }

/-- A later scam-classified call for the same session with an empty history. -/
def reqEmptyHistory : AnalyzeRequest :=
  { sessionId := pystr "s2",
    message := { sender := pystr "scammer", text := pystr "lottery", timestamp := 0 },
    conversationHistory := [] }

/-- C9 counterexample: the turn count is recomputed as history length + 1 on
every scam-like call, so it DROPS from 5 to 1 when a later call supplies a
shorter history — it is not monotonic. -/
theorem c9_turn_count_not_monotonic_cex :
    ((runCalls none heuristic_persona_and_language none [reqLongHistory]).map
        SessionState.turn_count = some 5) ∧
      ((runCalls none heuristic_persona_and_language none
          [reqLongHistory, reqEmptyHistory]).map SessionState.turn_count = some 1) ∧
      1 < 5 := by
  refine ⟨by decide, by decide, by decide⟩

/-- C9 (amended): on every scam-like call the session's turn count is set to
the supplied history length + 1 (recomputed, so it can decrease when a
shorter history is supplied), while the questions-asked count is kept as the
running maximum against its previous value and never decreases. -/
theorem c9_turn_recomputed_questions_monotonic
    (ml : Option (Str → Bool)) (route : Str → Str × Str)
    (st : Option SessionState) (req : AnalyzeRequest) :
    ((analyzeModel ml route st req).is_scam = true →
      (analyzeModel ml route st req).newState.map SessionState.turn_count =
        some (req.conversationHistory.length + 1)) ∧
      ∀ s : SessionState, st = some s →
        s.questions_asked ≤
          (((analyzeModel ml route st req).newState.map SessionState.questions_asked).getD
            s.questions_asked) := by
  cases hs : (predict_scam ml req.message.text || !req.conversationHistory.isEmpty)
  · constructor
    · intro h
      simp [analyzeModel, hs] at h
    · intro s hst
      simp [analyzeModel, hs, hst]
  · constructor
    · intro _
      simp [analyzeModel, hs, updateSessionState]
    · intro s hst
      subst hst
      simp [analyzeModel, hs, updateSessionState]

/-- An example pre-existing session entry. -/
def exampleSession : SessionState :=
  { persona := pystr "parent", language := pystr "english", questions_asked := 2,
    red_flags := [], elicitation_attempts := 0, turn_count := 5 }

/-- Witness for `c9_turn_recomputed_questions_monotonic` at a concrete
scam-classified empty-history call on an existing session. -/
theorem c9_turn_recomputed_questions_monotonic_witness :
    ((analyzeModel none heuristic_persona_and_language (some exampleSession)
        reqEmptyHistory).newState.map SessionState.turn_count = some 1) ∧
      exampleSession.questions_asked ≤
        (((analyzeModel none heuristic_persona_and_language (some exampleSession)
            reqEmptyHistory).newState.map SessionState.questions_asked).getD
          exampleSession.questions_asked) :=
  ⟨(c9_turn_recomputed_questions_monotonic none heuristic_persona_and_language
      (some exampleSession) reqEmptyHistory).1 (by decide),
    (c9_turn_recomputed_questions_monotonic none heuristic_persona_and_language
      (some exampleSession) reqEmptyHistory).2 exampleSession rfl⟩

/-! ### C10 -/

/-- C10: any request with a non-empty history is treated as scam-like no
matter what the classifier says about the current text (session entry
present afterwards, persona reply path taken, callback scheduled); the fixed
disengagement reply is returned exactly when the history is empty and
neither classifier tier fires. -/
theorem c10_history_overrides_classifier (ml : Option (Str → Bool))
    (route : Str → Str × Str) (st : Option SessionState) (req : AnalyzeRequest) :
    ((analyzeModel ml route st req).disengaged =
        (req.conversationHistory.isEmpty && !(predict_scam ml req.message.text))) ∧
      (req.conversationHistory ≠ [] →
        (analyzeModel ml route st req).is_scam = true ∧
          (analyzeModel ml route st req).newState.isSome = true ∧
          (analyzeModel ml route st req).callbackScheduled = true ∧
          (analyzeModel ml route st req).disengaged = false) := by
  cases hp : predict_scam ml req.message.text <;> cases hh : req.conversationHistory.isEmpty
  · exact ⟨by simp [analyzeModel, hp, hh], fun hne => by simp [analyzeModel, hp, hh]⟩
  · exact ⟨by simp [analyzeModel, hp, hh], fun hne => absurd (List.isEmpty_iff.mp hh) hne⟩
  · exact ⟨by simp [analyzeModel, hp, hh], fun hne => by simp [analyzeModel, hp, hh]⟩
  · exact ⟨by simp [analyzeModel, hp, hh], fun hne => by simp [analyzeModel, hp, hh]⟩

/-- Witness for `c10_history_overrides_classifier` at the concrete
four-message-history request whose current text no classifier tier flags. -/
theorem c10_history_overrides_classifier_witness :
    (analyzeModel none heuristic_persona_and_language none reqLongHistory).is_scam = true ∧
      (analyzeModel none heuristic_persona_and_language none
          reqLongHistory).newState.isSome = true ∧
      (analyzeModel none heuristic_persona_and_language none
          reqLongHistory).callbackScheduled = true ∧
      (analyzeModel none heuristic_persona_and_language none
          reqLongHistory).disengaged = false :=
  (c10_history_overrides_classifier none heuristic_persona_and_language none
      reqLongHistory).2 (List.cons_ne_nil _ _)
